import Mathlib

/-!
Shallow embedding of the status/diff/save engine of `datalad_revolution`
(`gitrepo.py`, `annexrepo.py`, `revdiff.py`).

Maps (Python `OrderedDict`) are modelled as association lists in insertion
order; `dict` lookup is `List.lookup` (keys are unique in all real inputs).
Optional dictionary keys are modelled as `Option` fields; Python exceptions
(`TypeError` from subscripting `None`, `KeyError`, `RuntimeError`) are
modelled with `Except PyError`.  Calls into the external store (`git
ls-files`/`ls-tree`, `git annex find`, the filesystem) are inputs: the
enumeration results and filesystem predicates are parameters of the
embedded functions, exactly as the Python code receives them from the
plumbing layer.
-/

namespace DataladRev

/-- Python truthiness of an optional string value (`None` and the empty
string are falsy). -/
def strTruthy : Option String → Bool
  | none => false
  | some s => s ≠ ""

/-- Python exceptions that the embedded code can raise. -/
inductive PyError where
  /-- subscripting `None`, e.g. `props['state']` when `props is None` -/
  | typeError : PyError
  /-- `d[k]` for a missing key `k` -/
  | keyError : String → PyError
  /-- `raise RuntimeError(msg)` -/
  | runtimeError : String → PyError
  deriving Repr, DecidableEq

/-- One record of `RevolutionGitRepo.get_content_info` (gitrepo.py:34-148):
`gitshasum` (`None` for untracked content) and `type`
(`file`/`symlink`/`dataset`/`directory`, or a raw mode string). -/
structure ContentRecord where
  gitshasum : Option String
  type : String
  deriving Repr, DecidableEq

/-- One record of `RevolutionGitRepo.status` (gitrepo.py:150-285): `state`,
`type`, and (for `clean`/`added` worktree entries and for staged deletions)
the `gitshasum` key. `gitshasum = none` models the key being absent. -/
structure StatusProps where
  state : String
  type : String
  gitshasum : Option String := none
  deriving Repr, DecidableEq

/-- The filesystem probes used by `status` (`f.exists()`, `f.is_symlink()`). -/
structure FS where
  pexists : String → Bool
  is_symlink : String → Bool

/-- Environment for the subdataset loop of `status` (gitrepo.py:255-284):
`GitRepo.is_valid_repo`, the subrepository's current `get_hexsha()`, and
whether the recursive `subrepo.status(..., ignore_submodules='other')`
contains any entry with a non-`clean` state. -/
structure SubdsEnv where
  is_valid_repo : String → Bool
  hexsha : String → String
  any_nonclean : String → Bool

/-- Body of the first loop of `status` (gitrepo.py:203-234): the value bound
to `props` for one worktree path `f`.  `none` models `props` remaining
`None`, which happens exactly when `ignore_submodules == 'all'` and the
entry is an unmodified `dataset` record. -/
def wtRecordProps (ignore_submodules : String) (modified : List String)
    (fs : FS) (head : List (String × ContentRecord))
    (f : String) (wt_r : ContentRecord) : Option StatusProps :=
  match head.lookup f with
  | none =>
      -- this is new, or rather not known to the previous state
      some { state := if strTruthy wt_r.gitshasum then "added" else "untracked",
             type := wt_r.type }
  | some head_r =>
      if wt_r.gitshasum = head_r.gitshasum ∧ f ∉ modified then
        if ignore_submodules ≠ "all" ∨ wt_r.type ≠ "dataset" then
          -- no change in git record, and no change on disk
          some { state := if fs.pexists f || fs.is_symlink f then "clean" else "deleted",
                 type := wt_r.type }
        else
          none
      else
        -- change in git record, or on disk
        some { state := if fs.pexists f || fs.is_symlink f then "modified" else "deleted",
               type := wt_r.type }

/-- gitrepo.py:235-236: for `clean`/`added` states the worktree shasum is
attached to the props. -/
def attachShasum (wt_r : ContentRecord) (p : StatusProps) : StatusProps :=
  if p.state = "clean" ∨ p.state = "added" then { p with gitshasum := wt_r.gitshasum } else p

/-- First loop of `status` (gitrepo.py:203-237) over the worktree entries.
When `wtRecordProps` is `none`, the unconditional `props['state']` access at
gitrepo.py:235 raises `TypeError` (`None` is not subscriptable). -/
def statusWtPass (ignore_submodules : String) (modified : List String)
    (fs : FS) (head : List (String × ContentRecord)) :
    List (String × ContentRecord) → Except PyError (List (String × StatusProps))
  | [] => .ok []
  | (f, wt_r) :: rest =>
      match wtRecordProps ignore_submodules modified fs head f wt_r with
      | none => .error .typeError
      | some p =>
          match statusWtPass ignore_submodules modified fs head rest with
          | .error e => .error e
          | .ok r => .ok ((f, attachShasum wt_r p) :: r)

/-- Second loop of `status` (gitrepo.py:239-250): paths known to `HEAD` but
gone from the worktree are reported `deleted`, carrying the reference
shasum to distinguish staged deletions from plain removals. -/
def statusHeadPass (wt : List (String × ContentRecord)) :
    List (String × ContentRecord) → List (String × StatusProps)
  | [] => []
  | (f, head_r) :: rest =>
      if (wt.lookup f).isSome then statusHeadPass wt rest
      else (f, { state := "deleted", type := head_r.type,
                 gitshasum := head_r.gitshasum }) :: statusHeadPass wt rest

/-- New state for an eligible subdataset entry in the recursion loop of
`status` (gitrepo.py:262-280). -/
def subdsNewState (env : SubdsEnv) (f : String) (st : StatusProps) : String :=
  if st.gitshasum ≠ some (env.hexsha f) then "modified"
  else if env.any_nonclean f then "modified"
  else st.state

/-- Subdataset loop of `status` (gitrepo.py:255-284), including the
`ignore_submodules == 'other'` early `break` once a modified subdataset is
found (the remaining entries stay unprocessed). -/
def subdatasetPass (ignore_submodules : String) (env : SubdsEnv) :
    List (String × StatusProps) → List (String × StatusProps)
  | [] => []
  | (f, st) :: rest =>
      if st.type = "dataset" ∧ st.state = "clean" ∧ env.is_valid_repo f then
        let st1 := { st with state := subdsNewState env f st }
        if ignore_submodules = "other" ∧ st1.state = "modified" then
          (f, st1) :: rest
        else
          (f, st1) :: subdatasetPass ignore_submodules env rest
      else
        (f, st) :: subdatasetPass ignore_submodules env rest

/-- `RevolutionGitRepo.status` (gitrepo.py:150-285).  The worktree and
reference enumerations (`get_content_info` results, i.e. parsed `git
ls-files`/`ls-tree` output) and the modified set (`git ls-files -z -m`
output) are inputs, as is the filesystem and the subdataset environment. -/
def status (ignore_submodules : String) (modified : List String)
    (fs : FS) (env : SubdsEnv)
    (wt head : List (String × ContentRecord)) :
    Except PyError (List (String × StatusProps)) :=
  match statusWtPass ignore_submodules modified fs head wt with
  | .error e => .error e
  | .ok s1 =>
      let s := s1 ++ statusHeadPass wt head
      if ignore_submodules = "all" then .ok s
      else .ok (subdatasetPass ignore_submodules env s)

/-! ## Save engine (`RevolutionGitRepo._save_pre` / `save_` / `_save_post`) -/

/-- A status map as consumed/produced by the save engine. -/
abbrev StatusMap := List (String × StatusProps)

/-- Store mutations (and the status query) performed by `save_`; each
constructor corresponds to one call into the underlying repository. -/
inductive Effect where
  /-- `self.status(...)` inside `_save_pre` -/
  | statusQuery : Effect
  /-- `self.add_submodule(path, ...)` (successful) -/
  | registerSubmodule : String → Effect
  /-- `self.add_(to_add, ...)` -/
  | stageAdd : List String → Effect
  /-- `self.remove(to_remove, ...)` -/
  | stageRemove : List String → Effect
  /-- `self.commit(files=to_commit, msg=message, ...)` in `_save_post` -/
  | commitPaths : List String → String → Effect
  deriving Repr, DecidableEq

/-- Result records yielded by `save_`.  `addResult` mirrors the
`get_status_dict` built from one `add_` result (`path` present iff the raw
result carried a `file` key, `ok` iff it carried a truthy `success`);
`removeResult` mirrors the raw `remove` result yielded unnormalized. -/
inductive ResultRecord where
  /-- gitrepo.py:406-412: per-path `status='error'` record for a failed
  `add_submodule` -/
  | addSubmoduleError : String → ResultRecord
  | addResult : Option String → Bool → ResultRecord
  | removeResult : String → ResultRecord
  deriving Repr, DecidableEq

/-- One raw result of `add_` as consumed at gitrepo.py:428-442. -/
structure AddRaw where
  file : Option String
  success : Bool
  deriving Repr, DecidableEq

/-- Environment for `save_`: responses of the underlying repository calls.
`statusResult` is what `self.status(...)` returns in `_save_pre`;
`scan` is `get_content_info(<paths>, ref=None, untracked='all')` for the
untracked-directory re-enumeration; `add_submodule_ok p` is whether
`self.add_submodule(p, ...)` succeeds (otherwise it raises and the except
branch runs); `add_run`/`remove_run` are the result streams of
`self.add_`/`self.remove`. -/
structure SaveEnv where
  statusResult : StatusMap
  scan : List String → List (String × ContentRecord)
  add_submodule_ok : String → Bool
  add_run : List String → List AddRaw
  remove_run : List String → List String

/-- Python truthiness of the `_status` argument (`None` or an empty dict). -/
def statusFalsy : Option StatusMap → Bool
  | none => true
  | some s => s.isEmpty

/-- gitrepo.py:302-305: discard all `clean` entries. -/
def filterClean (s : StatusMap) : StatusMap :=
  s.filter (fun kv => kv.2.state != "clean")

/-- `RevolutionGitRepo._save_pre` (gitrepo.py:287-306).  Returns the
actionable status (`none` models the early bare `return`) and whether
`self.status(...)` was queried. -/
def _save_pre (paths : Option (List String)) (_status : Option StatusMap)
    (env : SaveEnv) : Option StatusMap × Bool :=
  if paths ≠ none ∧ paths = some [] ∧ statusFalsy _status then
    (none, false)
  else
    match _status with
    | none => (some (filterClean env.statusResult), true)
    | some s => (some (filterClean s), false)

/-- Python `status[key] = value` on an ordered dict: replace in place if the
key exists, otherwise append. -/
def dictSet (m : StatusMap) (k : String) (v : StatusProps) : StatusMap :=
  if (m.lookup k).isSome then m.map (fun kv => if kv.1 = k then (k, v) else kv)
  else m ++ [(k, v)]

/-- gitrepo.py:391-393: the untracked directories of the actionable status. -/
def untracked_dirs (st : StatusMap) : List String :=
  (st.filter (fun kv => kv.2.state == "untracked" && kv.2.type == "directory")).map Prod.fst

/-- gitrepo.py:388-398: candidate submodules, i.e. every entry of an
exhaustive re-enumeration of the untracked directories that is still
reported as a `directory`. -/
def to_add_submodules (env : SaveEnv) (st : StatusMap) : List String :=
  ((env.scan (untracked_dirs st)).filter (fun kv => kv.2.type == "directory")).map Prod.fst

/-- gitrepo.py:400-414: the `add_submodule` loop.  A failing candidate
yields an error result and `continue`s; a succeeding one registers the
submodule and sets the `added_submodule` flag.  Returns (results, effects,
added_submodule). -/
def submoduleLoop (okFn : String → Bool) :
    List String → List ResultRecord × List Effect × Bool
  | [] => ([], [], false)
  | c :: rest =>
      let r := submoduleLoop okFn rest
      if okFn c then (r.1, .registerSubmodule c :: r.2.1, true)
      else (.addSubmoduleError c :: r.1, r.2.1, r.2.2)

/-- gitrepo.py:415-418: after a successful submodule registration,
`.gitmodules` is marked `modified` in the working status. -/
def save_st1 (env : SaveEnv) (st : StatusMap) : StatusMap :=
  if (submoduleLoop env.add_submodule_ok (to_add_submodules env st)).2.2 then
    dictSet st ".gitmodules" { state := "modified", type := "file" }
  else st

/-- gitrepo.py:419-424: paths staged for addition (`modified` or
`untracked`). -/
def to_add (st : StatusMap) : List String :=
  (st.filter (fun kv => kv.2.state == "modified" || kv.2.state == "untracked")).map Prod.fst

/-- gitrepo.py:444-453: paths staged for removal: classified `deleted` and
carrying no (truthy) `gitshasum` (staged deletions carry one and must not
be passed to `git rm` again). -/
def to_remove (st : StatusMap) : List String :=
  (st.filter (fun kv => kv.2.state == "deleted" && !(strTruthy kv.2.gitshasum))).map Prod.fst

/-- `_save_post` (gitrepo.py:308-329): all touched paths are committed with
the caller's message or the default placeholder. -/
def _save_post (message : Option String) (st : StatusMap) : List Effect :=
  let msg := match message with
    | none => "Recorded changes"
    | some m => if m = "" then "Recorded changes" else m
  let to_commit := st.map Prod.fst
  if to_commit.isEmpty then [] else [.commitPaths to_commit msg]

/-- `RevolutionGitRepo.save_` (gitrepo.py:374-464): returns the yielded
result records and the sequence of performed repository calls. -/
def save_ (message : Option String) (paths : Option (List String))
    (_status : Option StatusMap) (env : SaveEnv) :
    List ResultRecord × List Effect :=
  let pre := _save_pre paths _status env
  let preEffects : List Effect := if pre.2 then [.statusQuery] else []
  match pre.1 with
  | none => ([], preEffects)
  | some st =>
      if st.isEmpty then ([], preEffects)
      else
        let sm := submoduleLoop env.add_submodule_ok (to_add_submodules env st)
        let st1 := save_st1 env st
        let adds := to_add st1
        let addEffects : List Effect := if adds.isEmpty then [] else [.stageAdd adds]
        let addResults : List ResultRecord :=
          if adds.isEmpty then []
          else (env.add_run adds).map (fun r => .addResult r.file r.success)
        let rems := to_remove st1
        let remEffects : List Effect := if rems.isEmpty then [] else [.stageRemove rems]
        let remResults : List ResultRecord :=
          if rems.isEmpty then [] else (env.remove_run rems).map .removeResult
        (sm.1 ++ addResults ++ remResults,
         preEffects ++ sm.2.1 ++ addEffects ++ remEffects ++ _save_post message st1)

/-! ## Recursive diff (`revdiff.py:_diff_ds`) -/

/-- `datalad.consts.PRE_INIT_COMMIT_SHA`: the hash of the empty tree, used
as the sentinel "from" reference for subdatasets whose link was itself just
added (tested in tests/test_diff.py:test_magic_number). -/
def PRE_INIT_COMMIT_SHA : String := "4b825dc642cb6eb9a060e54bf8d69288fbee4904"

/-- One record of a `diffstatus` result as consumed by `_diff_ds`
(revdiff.py:196-235).  All fields model optional dict keys
(`props.get(...)` vs. `props[...]`). -/
structure DiffProps where
  state : Option String := none
  type : Option String := none
  gitshasum : Option String := none
  prev_gitshasum : Option String := none
  deriving Repr, DecidableEq

/-- Python `d[k]`: the value, or a `KeyError` when the key is absent. -/
def getItem (o : Option α) (k : String) : Except PyError α :=
  match o with
  | some v => .ok v
  | none => .error (.keyError k)

/-- Decision taken by `_diff_ds` for one reported path. -/
inductive SubdsDive where
  /-- `continue`: subdataset in `clean`/`deleted` state, no descent -/
  | skip : SubdsDive
  /-- recursive `_diff_ds(subds, fr, to, recursion_level, ...)` call -/
  | dive : String → Option String → Int → SubdsDive
  deriving Repr, DecidableEq

/-- revdiff.py:206-235: whether and how `_diff_ds` recurses into a reported
path, given the overall `to` endpoint (`none` = the worktree) and the
path's diff record.  Returns `none` when the guard (nonzero recursion level
and `type == 'dataset'`) does not fire. -/
def _diff_ds_subds (recursion_level : Int) (toRef : Option String)
    (props : DiffProps) : Except PyError (Option SubdsDive) :=
  if recursion_level ≠ 0 ∧ props.type = some "dataset" then
    let subds_state := props.state
    if subds_state = some "clean" ∨ subds_state = some "deleted" then
      -- no need to look into the subdataset
      .ok (some .skip)
    else if subds_state = some "added" ∨ subds_state = some "modified" then
      -- from before time or from the reported state, to the last
      -- recorded state or the worktree
      match
        (if subds_state = some "added" then Except.ok PRE_INIT_COMMIT_SHA
         else getItem props.prev_gitshasum "prev_gitshasum"),
        (match toRef with
         | none => Except.ok none
         | some _ => (getItem props.gitshasum "gitshasum").map some) with
      | .ok fr, .ok t => .ok (some (.dive fr t (recursion_level - 1)))
      | .error e, _ => .error e
      | .ok _, .error e => .error e
    else
      .error (.runtimeError "Unexpected subdataset state")
  else
    .ok none

/-! ## Content-addressable extension (`annexrepo.py`) -/

/-- One merged info record of `get_content_annexinfo`/`annexstatus`
(annexrepo.py): git enumeration fields, annex `find` fields, and status
fields; every field models an optional dict key. -/
structure AnnexInfoRecord where
  type : Option String := none
  gitshasum : Option String := none
  state : Option String := none
  key : Option String := none
  bytesize : Option String := none
  hashdirmixed : Option String := none
  hashdirlower : Option String := none
  objloc : Option String := none
  has_content : Option Bool := none
  deriving Repr, DecidableEq

/-- One JSON record of `git annex find`/`findref` as consumed at
annexrepo.py:125-129; fields other than `file` are merged into the info
record when present. -/
structure AnnexJson where
  file : String
  key : Option String := none
  bytesize : Option String := none
  hashdirmixed : Option String := none
  hashdirlower : Option String := none
  deriving Repr, DecidableEq

/-- The candidate object path `objectstore/<hashdir>/<key>/<key>` probed at
annexrepo.py:53-56. -/
def objpath (objectstore hashdir key : String) : String :=
  objectstore ++ "/" ++ hashdir ++ "/" ++ key ++ "/" ++ key

/-- Body of `_mark_content_availability` (annexrepo.py:36-62) for one
record: records without a `key` or with `has_content` already present are
skipped; otherwise `has_content` is set to `False`, the two hash-bucketing
layouts are probed (`hashdirmixed` first, then `hashdirlower`), and the
first existing object file sets `objloc`/`has_content=True` and pops the
hashdir hints. -/
def mark_record (fsx : String → Bool) (objectstore : String)
    (r : AnnexInfoRecord) : Except PyError AnnexInfoRecord :=
  if r.key = none ∨ r.has_content ≠ none then
    -- not annexed or already processed
    .ok r
  else
    match getItem r.key "key" with
    | .error e => .error e
    | .ok key =>
        match getItem r.hashdirmixed "hashdirmixed",
              getItem r.hashdirlower "hashdirlower" with
        | .error e, _ => .error e
        | .ok _, .error e => .error e
        | .ok hdm, .ok hdl =>
            if fsx (objpath objectstore hdm key) then
              .ok { r with hashdirlower := none, hashdirmixed := none,
                           objloc := some (objpath objectstore hdm key),
                           has_content := some true }
            else if fsx (objpath objectstore hdl key) then
              .ok { r with hashdirlower := none, hashdirmixed := none,
                           objloc := some (objpath objectstore hdl key),
                           has_content := some true }
            else
              .ok { r with has_content := some false }

/-- `_mark_content_availability` (annexrepo.py:33-62) over a whole info
map. -/
def markAll (fsx : String → Bool) (objectstore : String) :
    List (String × AnnexInfoRecord) → Except PyError (List (String × AnnexInfoRecord))
  | [] => .ok []
  | (f, r) :: rest =>
      match mark_record fsx objectstore r with
      | .error e => .error e
      | .ok r2 =>
          match markAll fsx objectstore rest with
          | .error e => .error e
          | .ok rs => .ok ((f, r2) :: rs)

/-- Lift a `get_content_info` record into a merged info record
(annexrepo.py:113-115, `init='git'`). -/
def recordOfGit (r : ContentRecord) : AnnexInfoRecord :=
  { type := some r.type, gitshasum := r.gitshasum }

/-- Overwrite a field when the incoming dict carries the key. -/
def updField (new old : Option α) : Option α :=
  match new with
  | some v => some v
  | none => old

/-- annexrepo.py:128: `rec.update({k: j[k] for k in j if k != 'file'})`. -/
def updateWithJson (rec : AnnexInfoRecord) (j : AnnexJson) : AnnexInfoRecord :=
  { rec with
    key := updField j.key rec.key,
    bytesize := updField j.bytesize rec.bytesize,
    hashdirmixed := updField j.hashdirmixed rec.hashdirmixed,
    hashdirlower := updField j.hashdirlower rec.hashdirlower }

/-- annexrepo.py:148: `inf.update(r)` with a status record (`state` and
`type` always present, `gitshasum` only for some states). -/
def updateWithStatus (rec : AnnexInfoRecord) (p : StatusProps) : AnnexInfoRecord :=
  { rec with
    state := some p.state,
    type := some p.type,
    gitshasum := updField p.gitshasum rec.gitshasum }

/-- Python `info[path] = rec` on the ordered annex info map. -/
def infoSet (m : List (String × AnnexInfoRecord)) (k : String)
    (v : AnnexInfoRecord) : List (String × AnnexInfoRecord) :=
  if (m.lookup k).isSome then m.map (fun kv => if kv.1 = k then (k, v) else kv)
  else m ++ [(k, v)]

/-- The `init` argument of `get_content_annexinfo` (annexrepo.py:111-117):
`'git'`, a caller-supplied dict, or `None`. -/
inductive InitArg where
  | git : InitArg
  | dict : List (String × AnnexInfoRecord) → InitArg
  | noneArg : InitArg

/-- Environment of the annex extension: `gitInfo ref` is
`GitRepo.get_content_info(paths, ref)`, `annexFind ref` the JSON stream of
`git annex find`/`findref`, `statusFn u` the result of
`self.status(paths=paths, untracked=u)`, `fsx` the object-file existence
probe and `objectstore` the local annex object store root. -/
structure AnnexEnv where
  gitInfo : Option String → List (String × ContentRecord)
  annexFind : Option String → List AnnexJson
  statusFn : String → Except PyError StatusMap
  fsx : String → Bool
  objectstore : String

/-- The `find`-merge loop of `get_content_annexinfo` (annexrepo.py:125-134);
with `eval_availability` the whole map is re-marked after every merged
record, exactly as in the source. -/
def annexFindLoop (env : AnnexEnv) (eval_availability : Bool) :
    List AnnexJson → List (String × AnnexInfoRecord) →
    Except PyError (List (String × AnnexInfoRecord))
  | [], info => .ok info
  | j :: rest, info =>
      let rec0 := (info.lookup j.file).getD {}
      let info1 := infoSet info j.file (updateWithJson rec0 j)
      if eval_availability then
        match markAll env.fsx env.objectstore info1 with
        | .error e => .error e
        | .ok info2 => annexFindLoop env eval_availability rest info2
      else
        annexFindLoop env eval_availability rest info1

/-- `RevolutionAnnexRepo.get_content_annexinfo` (annexrepo.py:64-135). -/
def get_content_annexinfo (env : AnnexEnv) (init : InitArg)
    (ref : Option String) (eval_availability : Bool) :
    Except PyError (List (String × AnnexInfoRecord)) :=
  let info0 : List (String × AnnexInfoRecord) :=
    match init with
    | .noneArg => []
    | .git => (env.gitInfo ref).map (fun kv => (kv.1, recordOfGit kv.2))
    | .dict m => m
  annexFindLoop env eval_availability (env.annexFind ref) info0

/-- The status-merge loop of `annexstatus` (annexrepo.py:146-149). -/
def annexStatusMerge (st : StatusMap)
    (info : List (String × AnnexInfoRecord)) : List (String × AnnexInfoRecord) :=
  st.foldl (fun acc fr =>
    infoSet acc fr.1 (updateWithStatus ((acc.lookup fr.1).getD {}) fr.2)) info

/-- `RevolutionAnnexRepo.annexstatus` (annexrepo.py:137-151).  The
`untracked` parameter (default `'all'`) is accepted but never used by the
body; `self.status(paths=paths)` runs with its own default
`untracked='all'`. -/
def annexstatus (env : AnnexEnv) (untracked : String := "all") :
    Except PyError (List (String × AnnexInfoRecord)) :=
  match get_content_annexinfo env .git (some "HEAD") false with
  | .error e => .error e
  | .ok headInfo =>
      match get_content_annexinfo env (.dict headInfo) none false with
      | .error e => .error e
      | .ok info =>
          match markAll env.fsx env.objectstore info with
          | .error e => .error e
          | .ok info1 =>
              match env.statusFn "all" with
              | .error e => .error e
              | .ok st => .ok (annexStatusMerge st info1)

/-! ## Concrete instances used in counterexamples and witnesses -/

/-- A filesystem on which every path exists and nothing is a symlink. -/
def trivFS : FS := ⟨fun _ => true, fun _ => false⟩

/-- A subdataset environment with no valid nested repositories. -/
def trivEnv : SubdsEnv := ⟨fun _ => false, fun _ => "", fun _ => false⟩

/-- A save environment answering every repository call trivially. -/
def trivSaveEnv : SaveEnv :=
  ⟨[], fun _ => [], fun _ => true, fun _ => [], fun _ => []⟩

/-- A clean, unmodified submodule record as enumerated in both the worktree
(`ls-files --stage` gitlink entry) and `HEAD` (`ls-tree` 160000 entry). -/
def c1_sub : ContentRecord := { gitshasum := some "c0ffee", type := "dataset" }

/-- Modelled from the spec: the worktree enumeration (§6 `list-files
--stage -z -d -m --exclude-standard -o --directory`) for the §8 concrete
scenario (one clean tracked file `a.txt`, one untracked file `b.txt`)
under `untracked='normal'`: the tracked file with its staged shasum plus
the untracked file as a bare-path record with no identity. -/
def c8_wt_normal : List (String × ContentRecord) :=
  [("a.txt", { gitshasum := some "1111111111111111111111111111111111111111",
               type := "file" }),
   ("b.txt", { gitshasum := none, type := "file" })]

/-- Modelled from the spec: the same worktree enumeration under
`untracked='no'` (§4.1: `no` suppresses all untracked paths). -/
def c8_wt_no : List (String × ContentRecord) :=
  [("a.txt", { gitshasum := some "1111111111111111111111111111111111111111",
               type := "file" })]

/-- Modelled from the spec: the `HEAD` enumeration (§6 `list-tree`) for the
§8 scenario: only the committed file. -/
def c8_head : List (String × ContentRecord) :=
  [("a.txt", { gitshasum := some "1111111111111111111111111111111111111111",
               type := "file" })]

/-- Save environment for the submodule-promotion scenario: re-enumerating
the untracked directories reports two entries still typed `directory`
(candidate submodules); registering `subA` fails, registering `subB`
succeeds. -/
def c7_env : SaveEnv where
  statusResult := []
  scan := fun _ => [("subA", { gitshasum := none, type := "directory" }),
                    ("subB", { gitshasum := none, type := "directory" })]
  add_submodule_ok := fun p => p == "subB"
  add_run := fun _ => []
  remove_run := fun _ => []

/-- The input status for the submodule-promotion scenario: two untracked
directories. -/
def c7_status : StatusMap :=
  [("subA", { state := "untracked", type := "directory" }),
   ("subB", { state := "untracked", type := "directory" })]

/-! ## Helper lemmas (association-list dictionaries) -/

theorem lookup_cons_self {β : Type} (g : String) (v : β) (l : List (String × β)) :
    List.lookup g ((g, v) :: l) = some v := by
  simp [List.lookup]

theorem lookup_cons_ne {β : Type} (g : String) (v : β) (l : List (String × β))
    {f : String} (h : f ≠ g) : List.lookup f ((g, v) :: l) = List.lookup f l := by
  have hb : (f == g) = false := beq_eq_false_iff_ne.mpr h
  simp [List.lookup, hb]

theorem lookup_none_iff {β : Type} (l : List (String × β)) (f : String) :
    List.lookup f l = none ↔ f ∉ l.map Prod.fst := by
  induction l with
  | nil => simp [List.lookup]
  | cons hd tl ih =>
      obtain ⟨g, v⟩ := hd
      by_cases h : f = g
      · subst h
        simp [lookup_cons_self]
      · simp [lookup_cons_ne _ _ _ h, ih, h]

theorem lookup_append_left_none {β : Type} (s1 s2 : List (String × β)) (f : String)
    (h : List.lookup f s1 = none) :
    List.lookup f (s1 ++ s2) = List.lookup f s2 := by
  induction s1 with
  | nil => simp
  | cons hd tl ih =>
      obtain ⟨g, v⟩ := hd
      by_cases hfg : f = g
      · subst hfg
        rw [lookup_cons_self] at h
        exact absurd h (by simp)
      · rw [List.cons_append, lookup_cons_ne _ _ _ hfg] at *
        exact ih h

theorem attachShasum_state (wt_r : ContentRecord) (p : StatusProps) :
    (attachShasum wt_r p).state = p.state := by
  unfold attachShasum
  split <;> rfl

theorem attachShasum_type (wt_r : ContentRecord) (p : StatusProps) :
    (attachShasum wt_r p).type = p.type := by
  unfold attachShasum
  split <;> rfl

theorem statusWtPass_lookup (ign : String) (modified : List String) (fs : FS)
    (head : List (String × ContentRecord)) (wt : List (String × ContentRecord))
    (f : String) (wt_r : ContentRecord) (st : List (String × StatusProps))
    (hwt : wt.lookup f = some wt_r)
    (hok : statusWtPass ign modified fs head wt = .ok st) :
    ∃ p, wtRecordProps ign modified fs head f wt_r = some p ∧
      st.lookup f = some (attachShasum wt_r p) := by
  induction wt generalizing st with
  | nil => simp [List.lookup] at hwt
  | cons hd tl ih =>
      obtain ⟨g, r⟩ := hd
      simp only [statusWtPass] at hok
      cases hpr : wtRecordProps ign modified fs head g r with
      | none => rw [hpr] at hok; exact absurd hok (by simp)
      | some p =>
          rw [hpr] at hok
          cases htl : statusWtPass ign modified fs head tl with
          | error e => rw [htl] at hok; exact absurd hok (by simp)
          | ok rs =>
              rw [htl] at hok
              injection hok with hok
              subst hok
              by_cases hfg : f = g
              · subst hfg
                rw [lookup_cons_self] at hwt
                injection hwt with hwt
                subst hwt
                exact ⟨p, hpr, lookup_cons_self _ _ _⟩
              · rw [lookup_cons_ne _ _ _ hfg] at hwt
                rw [lookup_cons_ne _ _ _ hfg]
                exact ih rs hwt htl

theorem statusWtPass_lookup_none (ign : String) (modified : List String) (fs : FS)
    (head : List (String × ContentRecord)) (wt : List (String × ContentRecord))
    (f : String) (st : List (String × StatusProps))
    (hwt : wt.lookup f = none)
    (hok : statusWtPass ign modified fs head wt = .ok st) :
    st.lookup f = none := by
  induction wt generalizing st with
  | nil =>
      simp only [statusWtPass] at hok
      injection hok with hok
      subst hok
      simp [List.lookup]
  | cons hd tl ih =>
      obtain ⟨g, r⟩ := hd
      simp only [statusWtPass] at hok
      cases hpr : wtRecordProps ign modified fs head g r with
      | none => rw [hpr] at hok; exact absurd hok (by simp)
      | some p =>
          rw [hpr] at hok
          cases htl : statusWtPass ign modified fs head tl with
          | error e => rw [htl] at hok; exact absurd hok (by simp)
          | ok rs =>
              rw [htl] at hok
              injection hok with hok
              subst hok
              by_cases hfg : f = g
              · subst hfg
                rw [lookup_cons_self] at hwt
                exact absurd hwt (by simp)
              · rw [lookup_cons_ne _ _ _ hfg] at hwt
                rw [lookup_cons_ne _ _ _ hfg]
                exact ih rs hwt htl

theorem statusHeadPass_lookup (wt : List (String × ContentRecord))
    (head : List (String × ContentRecord)) (f : String) (head_r : ContentRecord)
    (hh : head.lookup f = some head_r) (hwt : wt.lookup f = none) :
    (statusHeadPass wt head).lookup f =
      some { state := "deleted", type := head_r.type,
             gitshasum := head_r.gitshasum } := by
  induction head with
  | nil => simp [List.lookup] at hh
  | cons hd tl ih =>
      obtain ⟨g, r⟩ := hd
      by_cases hfg : f = g
      · subst hfg
        rw [lookup_cons_self] at hh
        injection hh with hh
        subst hh
        simp only [statusHeadPass]
        rw [hwt]
        simp [lookup_cons_self]
      · rw [lookup_cons_ne _ _ _ hfg] at hh
        simp only [statusHeadPass]
        split
        · exact ih hh
        · rw [lookup_cons_ne _ _ _ hfg]
          exact ih hh

theorem subdatasetPass_lookup_nonclean (ign : String) (env : SubdsEnv)
    (l : List (String × StatusProps)) (f : String) (p : StatusProps)
    (hl : l.lookup f = some p) (hnc : p.state ≠ "clean") :
    (subdatasetPass ign env l).lookup f = some p := by
  induction l with
  | nil => simp [List.lookup] at hl
  | cons hd tl ih =>
      obtain ⟨g, st⟩ := hd
      by_cases hfg : f = g
      · subst hfg
        rw [lookup_cons_self] at hl
        injection hl with hl
        subst hl
        simp only [subdatasetPass]
        split
        · next hcond => exact absurd hcond.2.1 hnc
        · exact lookup_cons_self _ _ _
      · rw [lookup_cons_ne _ _ _ hfg] at hl
        simp only [subdatasetPass]
        split
        · split
          · rw [lookup_cons_ne _ _ _ hfg]
            exact hl
          · rw [lookup_cons_ne _ _ _ hfg]
            exact ih hl
        · rw [lookup_cons_ne _ _ _ hfg]
          exact ih hl

theorem to_remove_mem (sm : StatusMap) (g : String) :
    g ∈ to_remove sm ↔
      ∃ p, (g, p) ∈ sm ∧ p.state = "deleted" ∧ strTruthy p.gitshasum = false := by
  simp only [to_remove, List.mem_map, List.mem_filter]
  constructor
  · rintro ⟨⟨a, p⟩, ⟨hmem, hp⟩, rfl⟩
    simp only [Bool.and_eq_true, beq_iff_eq, Bool.not_eq_true'] at hp
    exact ⟨p, hmem, hp.1, hp.2⟩
  · rintro ⟨p, hmem, h1, h2⟩
    exact ⟨(g, p), ⟨hmem, by simp [h1, h2]⟩, rfl⟩

theorem submoduleLoop_error_mem (okFn : String → Bool) (cands : List String)
    (c : String) (hc : c ∈ cands) (hf : okFn c = false) :
    ResultRecord.addSubmoduleError c ∈ (submoduleLoop okFn cands).1 := by
  induction cands with
  | nil => simp at hc
  | cons hd tl ih =>
      simp only [submoduleLoop]
      rcases List.mem_cons.mp hc with rfl | hmem
      · rw [hf]
        simp
      · split
        · exact ih hmem
        · exact List.mem_cons_of_mem _ (ih hmem)

theorem submoduleLoop_register_mem (okFn : String → Bool) (cands : List String)
    (c : String) (hc : c ∈ cands) (ht : okFn c = true) :
    Effect.registerSubmodule c ∈ (submoduleLoop okFn cands).2.1 := by
  induction cands with
  | nil => simp at hc
  | cons hd tl ih =>
      simp only [submoduleLoop]
      rcases List.mem_cons.mp hc with rfl | hmem
      · rw [ht]
        simp
      · split
        · exact List.mem_cons_of_mem _ (ih hmem)
        · exact ih hmem

theorem dictSet_ne_nil (m : StatusMap) (k : String) (v : StatusProps) :
    dictSet m k v ≠ [] := by
  cases m with
  | nil => simp [dictSet, List.lookup]
  | cons hd tl =>
      unfold dictSet
      split
      · simp
      · simp

theorem save_st1_ne_nil (env : SaveEnv) (st : StatusMap) (hne : st ≠ []) :
    save_st1 env st ≠ [] := by
  unfold save_st1
  split
  · exact dictSet_ne_nil _ _ _
  · exact hne

theorem save__empty_pre (message : Option String) (paths : Option (List String))
    (_status : Option StatusMap) (env : SaveEnv)
    (h : (_save_pre paths _status env).1 = some [] ∨
         (_save_pre paths _status env).1 = none) :
    save_ message paths _status env =
      ([], if (_save_pre paths _status env).2 then [Effect.statusQuery] else []) := by
  unfold save_
  rcases h with h | h <;> simp [h]

theorem save__nonempty_pre (message : Option String) (paths : Option (List String))
    (_status : Option StatusMap) (env : SaveEnv) (st : StatusMap)
    (hpre : (_save_pre paths _status env).1 = some st)
    (hemp : st.isEmpty = false) :
    save_ message paths _status env =
      ((submoduleLoop env.add_submodule_ok (to_add_submodules env st)).1 ++
        (if (to_add (save_st1 env st)).isEmpty then []
         else (env.add_run (to_add (save_st1 env st))).map
           (fun r => ResultRecord.addResult r.file r.success)) ++
        (if (to_remove (save_st1 env st)).isEmpty then []
         else (env.remove_run (to_remove (save_st1 env st))).map ResultRecord.removeResult),
       (if (_save_pre paths _status env).2 then [Effect.statusQuery] else []) ++
        (submoduleLoop env.add_submodule_ok (to_add_submodules env st)).2.1 ++
        (if (to_add (save_st1 env st)).isEmpty then []
         else [Effect.stageAdd (to_add (save_st1 env st))]) ++
        (if (to_remove (save_st1 env st)).isEmpty then []
         else [Effect.stageRemove (to_remove (save_st1 env st))]) ++
        _save_post message (save_st1 env st)) := by
  unfold save_
  simp only [hpre, hemp]
  rfl

/-! ## Claim theorems -/

/-- C1: the claim says that with `ignore_submodules == 'all'` a path that is
present in both snapshots with the same identity, not in the modified set,
and of kind `dataset` is skipped (no record) and the call completes
normally.  The code instead leaves `props = None` for such a path and then
unconditionally evaluates `props['state']` (gitrepo.py:235), so the call
raises `TypeError` instead of completing: evaluating the embedded `status`
at such an input yields the error. -/
theorem C1_ignore_submodules_all_clean_dataset_crashes :
    status "all" [] trivFS trivEnv [("sub", c1_sub)] [("sub", c1_sub)] =
      .error .typeError := rfl

/-- C2 counterexample: at a concrete input where the two identities are
equal and the path is not in the modified set (and it exists on disk), the
claim predicts a `clean` record for the path; but with
`ignore_submodules == 'all'` and kind `dataset` the classification loop
produces no such record at all (it raises), so the claim as stated is
false. -/
theorem C2_counterexample :
    ¬ ∃ st p, status "all" [] trivFS trivEnv [("ds", c1_sub)] [("ds", c1_sub)] = .ok st ∧
        st.lookup "ds" = some p ∧ p.state = "clean" := by
  rintro ⟨st, p, hok, -, -⟩
  have h : status "all" [] trivFS trivEnv [("ds", c1_sub)] [("ds", c1_sub)] =
      .error .typeError := rfl
  rw [h] at hok
  exact absurd hok (by simp)

/-- C2 (amended): for every path present in both snapshots, **except in
the one corner where `ignore_submodules = 'all'`, the worktree kind is
`dataset`, the two identities are equal and the path is not in the
modified set** (that corner produces no record — the code in fact raises
there, see C1), the classification loop of `status()` yields: same
identity and not in the modified set → `clean` if the path exists on disk
or is a symlink, else `deleted`; identity differs or path in the modified
set → `modified` if it exists on disk or is a symlink, else `deleted`
(this branch holds also for datasets under `'all'`); the record keeps the
worktree kind. -/
theorem C2_amended_classification (ign : String) (modified : List String)
    (fs : FS) (head wt : List (String × ContentRecord)) (f : String)
    (wt_r head_r : ContentRecord) (st : List (String × StatusProps))
    (hwt : wt.lookup f = some wt_r)
    (hh : head.lookup f = some head_r)
    (hex : ¬(ign = "all" ∧ wt_r.type = "dataset" ∧
             wt_r.gitshasum = head_r.gitshasum ∧ f ∉ modified))
    (hok : statusWtPass ign modified fs head wt = .ok st) :
    ∃ p, st.lookup f = some p ∧ p.type = wt_r.type ∧
      p.state = if wt_r.gitshasum = head_r.gitshasum ∧ f ∉ modified
                then (if fs.pexists f || fs.is_symlink f then "clean" else "deleted")
                else (if fs.pexists f || fs.is_symlink f then "modified" else "deleted") := by
  obtain ⟨p, hpr, hlu⟩ := statusWtPass_lookup ign modified fs head wt f wt_r st hwt hok
  simp only [wtRecordProps, hh] at hpr
  refine ⟨attachShasum wt_r p, hlu, ?_, ?_⟩
  · rw [attachShasum_type]
    split at hpr
    · split at hpr
      · injection hpr with hpr
        subst hpr
        rfl
      · exact absurd hpr (by simp)
    · injection hpr with hpr
      subst hpr
      rfl
  · rw [attachShasum_state]
    split at hpr
    · next hc =>
        split at hpr
        · injection hpr with hpr
          subst hpr
          simp [hc]
        · next hguard =>
            push_neg at hguard
            exact absurd ⟨hguard.1, hguard.2, hc.1, hc.2⟩ hex
    · next hc =>
        injection hpr with hpr
        subst hpr
        simp [hc]

/-- C2 witness: the amended theorem applied to a concrete one-file worktree
(tracked file with unchanged identity, present on disk) classified
`clean`. -/
theorem C2_witness :
    ∃ p, List.lookup "a.txt"
        [("a.txt", attachShasum { gitshasum := some "aa", type := "file" }
            { state := "clean", type := "file" })] = some p ∧
      p.type = "file" ∧
      p.state = if (some "aa" : Option String) = some "aa" ∧ "a.txt" ∉ ([] : List String)
                then (if trivFS.pexists "a.txt" || trivFS.is_symlink "a.txt" then "clean" else "deleted")
                else (if trivFS.pexists "a.txt" || trivFS.is_symlink "a.txt" then "modified" else "deleted") := by
  have h := C2_amended_classification "no" [] trivFS
    [("a.txt", { gitshasum := some "aa", type := "file" })]
    [("a.txt", { gitshasum := some "aa", type := "file" })]
    "a.txt" { gitshasum := some "aa", type := "file" }
    { gitshasum := some "aa", type := "file" } _
    (by rfl) (by rfl) (by simp) (by rfl)
  simpa using h

/-- C3: a path present only in the reference snapshot is classified
`deleted` carrying the reference identity; and `to_remove`
(gitrepo.py:444-453) stages a removal exactly for the `deleted` entries
carrying no (truthy) identity, leaving already-staged deletions (identity
present) untouched. -/
theorem C3_deleted_carries_identity_and_removal_staging (ign : String)
    (modified : List String) (fs : FS) (env : SubdsEnv)
    (wt head : List (String × ContentRecord)) (f : String)
    (head_r : ContentRecord) (st : List (String × StatusProps))
    (hwt : wt.lookup f = none)
    (hh : head.lookup f = some head_r)
    (hok : status ign modified fs env wt head = .ok st) :
    st.lookup f = some { state := "deleted", type := head_r.type,
                         gitshasum := head_r.gitshasum } ∧
    ∀ (sm : StatusMap) (g : String),
      g ∈ to_remove sm ↔
        ∃ p, (g, p) ∈ sm ∧ p.state = "deleted" ∧ strTruthy p.gitshasum = false := by
  refine ⟨?_, fun sm g => to_remove_mem sm g⟩
  unfold status at hok
  cases h1 : statusWtPass ign modified fs head wt with
  | error e => rw [h1] at hok; exact absurd hok (by simp)
  | ok s1 =>
      rw [h1] at hok
      have hs1 : s1.lookup f = none := statusWtPass_lookup_none ign modified fs head wt f s1 hwt h1
      have happ : (s1 ++ statusHeadPass wt head).lookup f =
          some { state := "deleted", type := head_r.type, gitshasum := head_r.gitshasum } := by
        rw [lookup_append_left_none _ _ _ hs1]
        exact statusHeadPass_lookup wt head f head_r hh hwt
      have hok2 : (if ign = "all" then Except.ok (s1 ++ statusHeadPass wt head)
          else Except.ok (subdatasetPass ign env (s1 ++ statusHeadPass wt head)))
            = Except.ok st := hok
      by_cases hall : ign = "all"
      · rw [if_pos hall] at hok2
        injection hok2 with hok2
        subst hok2
        exact happ
      · rw [if_neg hall] at hok2
        injection hok2 with hok2
        subst hok2
        exact subdatasetPass_lookup_nonclean ign env _ f _ happ (by simp)

/-- C3 witness: a repository whose worktree lost a tracked file; the
deleted record carries the `HEAD` shasum, and the removal-staging
characterization instantiated. -/
theorem C3_witness :
    (List.lookup "gone"
        [("gone", ({ state := "deleted", type := "file", gitshasum := some "abc" } : StatusProps))] =
      some { state := "deleted", type := "file", gitshasum := some "abc" }) ∧
    (∀ (sm : StatusMap) (g : String),
      g ∈ to_remove sm ↔
        ∃ p, (g, p) ∈ sm ∧ p.state = "deleted" ∧ strTruthy p.gitshasum = false) := by
  have h := C3_deleted_carries_identity_and_removal_staging "no" [] trivFS trivEnv
    [] [("gone", { gitshasum := some "abc", type := "file" })] "gone"
    { gitshasum := some "abc", type := "file" }
    [("gone", { state := "deleted", type := "file", gitshasum := some "abc" })]
    (by rfl) (by rfl) (by rfl)
  simpa using h

/-- C4: a caller-supplied StatusMap containing only `clean` entries is
emptied by the clean-filter of `_save_pre`, so `save_` performs zero store
mutations (no effects at all) and yields no result records. -/
theorem C4_all_clean_noop (message : Option String) (paths : Option (List String))
    (s : StatusMap) (env : SaveEnv)
    (hclean : ∀ kv ∈ s, kv.2.state = "clean") :
    save_ message paths (some s) env = ([], []) := by
  have hf : filterClean s = [] := by
    apply List.filter_eq_nil_iff.mpr
    intro kv hkv
    simp [hclean kv hkv]
  have hpre1 : (_save_pre paths (some s) env).1 = some [] ∨
      (_save_pre paths (some s) env).1 = none := by
    unfold _save_pre
    by_cases hcond : paths ≠ none ∧ paths = some [] ∧ statusFalsy (some s)
    · rw [if_pos hcond]
      right
      rfl
    · rw [if_neg hcond]
      left
      simp [hf]
  have hpre2 : (_save_pre paths (some s) env).2 = false := by
    unfold _save_pre
    by_cases hcond : paths ≠ none ∧ paths = some [] ∧ statusFalsy (some s)
    · rw [if_pos hcond]
    · rw [if_neg hcond]
  rw [save__empty_pre message paths (some s) env hpre1, hpre2]
  rfl

/-- C4 witness: the theorem applied to a one-entry all-clean status map. -/
theorem C4_witness :
    save_ none none
      (some [("a", { state := "clean", type := "file", gitshasum := some "x" })])
      trivSaveEnv = ([], []) :=
  C4_all_clean_noop none none
    [("a", { state := "clean", type := "file", gitshasum := some "x" })]
    trivSaveEnv (by decide)

/-- C10: calling `save_` with an explicit empty paths list and no
caller-supplied status returns immediately (`_save_pre` bare `return`):
no status query, zero effects, zero results. -/
theorem C10_empty_paths_early_return (message : Option String) (env : SaveEnv) :
    save_ message (some []) none env = ([], []) := rfl

/-- C5: during recursive diff, a subdataset link reported `added` is diffed
from the empty-tree sentinel `PRE_INIT_COMMIT_SHA`, one reported `modified`
from its previously recorded identity (`prev_gitshasum`); in both cases the
`to` endpoint is the worktree when the overall diff's `to` was the worktree
(`none`), and the link's newly recorded identity (`gitshasum`) otherwise
(revdiff.py:206-235). -/
theorem C5_subdataset_recursion_endpoints (recursion_level : Int)
    (toRef : Option String) (props : DiffProps) (g prev : String)
    (hlev : recursion_level ≠ 0)
    (hty : props.type = some "dataset")
    (hg : props.gitshasum = some g)
    (hprev : props.prev_gitshasum = some prev) :
    (props.state = some "added" →
      _diff_ds_subds recursion_level toRef props =
        .ok (some (.dive PRE_INIT_COMMIT_SHA (toRef.map fun _ => g)
          (recursion_level - 1)))) ∧
    (props.state = some "modified" →
      _diff_ds_subds recursion_level toRef props =
        .ok (some (.dive prev (toRef.map fun _ => g) (recursion_level - 1)))) := by
  constructor <;> intro hst <;>
    (unfold _diff_ds_subds getItem
     rw [if_pos ⟨hlev, hty⟩, hst]
     cases toRef <;> simp [hg, hprev, Except.map])

/-- C5 witness: the theorem applied to an `added` link with recorded
identities, once diffing to a named reference. -/
theorem C5_witness :
    (({ state := some "added", type := some "dataset", gitshasum := some "g1",
        prev_gitshasum := some "p1" } : DiffProps).state = some "added" →
      _diff_ds_subds (-1) (some "HEAD")
          { state := some "added", type := some "dataset", gitshasum := some "g1",
            prev_gitshasum := some "p1" } =
        .ok (some (.dive PRE_INIT_COMMIT_SHA ((some "HEAD").map fun _ => "g1") (-1 - 1)))) ∧
    (({ state := some "added", type := some "dataset", gitshasum := some "g1",
        prev_gitshasum := some "p1" } : DiffProps).state = some "modified" →
      _diff_ds_subds (-1) (some "HEAD")
          { state := some "added", type := some "dataset", gitshasum := some "g1",
            prev_gitshasum := some "p1" } =
        .ok (some (.dive "p1" ((some "HEAD").map fun _ => "g1") (-1 - 1)))) :=
  C5_subdataset_recursion_endpoints (-1) (some "HEAD")
    { state := some "added", type := some "dataset", gitshasum := some "g1",
      prev_gitshasum := some "p1" } "g1" "p1"
    (by decide) rfl rfl rfl

/-- C6: availability evaluation probes exactly the two candidate object
locations, the mixed hash-bucketing scheme strictly before the lower one:
if the mixed-scheme object file exists it wins (regardless of the lower
probe), else the lower one is probed; on a hit `has_content := true` and
`objloc` are set (and the hashdir hints dropped), on a double miss
`has_content := false`; records without a key or with `has_content`
already present are returned unchanged (annexrepo.py:33-62). -/
theorem C6_two_scheme_probe (fsx : String → Bool) (objectstore : String)
    (r : AnnexInfoRecord) (k m l : String)
    (hk : r.key = some k) (hhc : r.has_content = none)
    (hm : r.hashdirmixed = some m) (hl : r.hashdirlower = some l) :
    (fsx (objpath objectstore m k) = true →
      mark_record fsx objectstore r =
        .ok { r with hashdirlower := none, hashdirmixed := none,
                     objloc := some (objpath objectstore m k),
                     has_content := some true }) ∧
    (fsx (objpath objectstore m k) = false → fsx (objpath objectstore l k) = true →
      mark_record fsx objectstore r =
        .ok { r with hashdirlower := none, hashdirmixed := none,
                     objloc := some (objpath objectstore l k),
                     has_content := some true }) ∧
    (fsx (objpath objectstore m k) = false → fsx (objpath objectstore l k) = false →
      mark_record fsx objectstore r = .ok { r with has_content := some false }) ∧
    (∀ r2 : AnnexInfoRecord, r2.key = none ∨ r2.has_content ≠ none →
      mark_record fsx objectstore r2 = .ok r2) := by
  have hguard : ¬(r.key = none ∨ r.has_content ≠ none) := by simp [hk, hhc]
  refine ⟨?_, ?_, ?_, ?_⟩
  · intro h1
    simp [mark_record, hguard, hk, hhc, hm, hl, getItem, h1]
  · intro h1 h2
    simp [mark_record, hguard, hk, hhc, hm, hl, getItem, h1, h2]
  · intro h1 h2
    simp [mark_record, hguard, hk, hhc, hm, hl, getItem, h1, h2]
  · intro r2 h
    simp [mark_record, h]

/-- C6 witness: a record whose object file exists only under the lower
scheme: the mixed probe misses, the lower probe hits. -/
theorem C6_witness :
    ((fun s => s == objpath "os" "l1" "k1") (objpath "os" "m1" "k1") = true →
      mark_record (fun s => s == objpath "os" "l1" "k1") "os"
          { key := some "k1", hashdirmixed := some "m1", hashdirlower := some "l1" } =
        .ok { key := some "k1", hashdirmixed := none, hashdirlower := none,
              objloc := some (objpath "os" "m1" "k1"), has_content := some true }) ∧
    ((fun s => s == objpath "os" "l1" "k1") (objpath "os" "m1" "k1") = false →
      (fun s => s == objpath "os" "l1" "k1") (objpath "os" "l1" "k1") = true →
      mark_record (fun s => s == objpath "os" "l1" "k1") "os"
          { key := some "k1", hashdirmixed := some "m1", hashdirlower := some "l1" } =
        .ok { key := some "k1", hashdirmixed := none, hashdirlower := none,
              objloc := some (objpath "os" "l1" "k1"), has_content := some true }) ∧
    ((fun s => s == objpath "os" "l1" "k1") (objpath "os" "m1" "k1") = false →
      (fun s => s == objpath "os" "l1" "k1") (objpath "os" "l1" "k1") = false →
      mark_record (fun s => s == objpath "os" "l1" "k1") "os"
          { key := some "k1", hashdirmixed := some "m1", hashdirlower := some "l1" } =
        .ok { key := some "k1", hashdirmixed := some "m1", hashdirlower := some "l1",
              has_content := some false }) ∧
    (∀ r2 : AnnexInfoRecord, r2.key = none ∨ r2.has_content ≠ none →
      mark_record (fun s => s == objpath "os" "l1" "k1") "os" r2 = .ok r2) :=
  C6_two_scheme_probe (fun s => s == objpath "os" "l1" "k1") "os"
    { key := some "k1", hashdirmixed := some "m1", hashdirlower := some "l1" }
    "k1" "m1" "l1" rfl rfl rfl rfl

/-- C9: `annexstatus` accepts an `untracked` parameter but never forwards
it: its body never mentions it and the underlying `self.status(paths=...)`
runs with its own default untracked behaviour, so the result is identical
for any two values of the parameter. -/
theorem C9_annexstatus_untracked_irrelevant (env : AnnexEnv) (u1 u2 : String) :
    annexstatus env u1 = annexstatus env u2 ∧
    annexstatus env u1 = annexstatus env "all" :=
  ⟨rfl, rfl⟩

/-- C8 counterexample: in the §8 scenario (one clean tracked `a.txt`, one
untracked `b.txt`), the claim predicts exactly one record under
`untracked='normal'` and zero under `'no'`; the code returns two records
(the clean `a.txt` is reported as well) resp. one. -/
theorem C8_counterexample :
    ¬ (((status "no" [] trivFS trivEnv c8_wt_normal c8_head).map List.length = .ok 1) ∧
       ((status "no" [] trivFS trivEnv c8_wt_no c8_head).map List.length = .ok 0)) := by
  intro h
  have h1 : (status "no" [] trivFS trivEnv c8_wt_normal c8_head).map List.length =
      .ok 2 := rfl
  rw [h1] at h
  exact absurd h.1 (by simp)

/-- C8 (amended): in the §8 scenario, `status(untracked='normal')` returns
exactly two records — a `clean` one for `a.txt` and the untracked file
record `{b.txt, file, untracked}` — i.e. exactly one record with a
non-`clean` state; `status(untracked='no')` returns only the clean
`a.txt` record, i.e. zero non-`clean` records. -/
theorem C8_amended_scenario :
    status "no" [] trivFS trivEnv c8_wt_normal c8_head =
      .ok [("a.txt", { state := "clean", type := "file",
                       gitshasum := some "1111111111111111111111111111111111111111" }),
           ("b.txt", { state := "untracked", type := "file" })] ∧
    (status "no" [] trivFS trivEnv c8_wt_normal c8_head).map filterClean =
      .ok [("b.txt", { state := "untracked", type := "file" })] ∧
    status "no" [] trivFS trivEnv c8_wt_no c8_head =
      .ok [("a.txt", { state := "clean", type := "file",
                       gitshasum := some "1111111111111111111111111111111111111111" })] :=
  ⟨rfl, rfl, rfl⟩

/-- C7: during the submodule-promotion step of `save_`, a failing candidate
registration yields a per-path error result and does not prevent the
registration of the other candidates, the subsequent staging of additions
and removals, or the final commit (gitrepo.py:400-418, 462). -/
theorem C7_submodule_failure_isolated (message : Option String)
    (paths : Option (List String)) (_status : Option StatusMap) (env : SaveEnv)
    (st : StatusMap) (cand other : String)
    (hpre : (_save_pre paths _status env).1 = some st)
    (hne : st ≠ [])
    (hcand : cand ∈ to_add_submodules env st)
    (hfail : env.add_submodule_ok cand = false)
    (hother : other ∈ to_add_submodules env st)
    (hok : env.add_submodule_ok other = true) :
    ResultRecord.addSubmoduleError cand ∈ (save_ message paths _status env).1 ∧
    Effect.registerSubmodule other ∈ (save_ message paths _status env).2 ∧
    (to_add (save_st1 env st) ≠ [] →
      Effect.stageAdd (to_add (save_st1 env st)) ∈ (save_ message paths _status env).2) ∧
    (to_remove (save_st1 env st) ≠ [] →
      Effect.stageRemove (to_remove (save_st1 env st)) ∈ (save_ message paths _status env).2) ∧
    ∃ ps m, Effect.commitPaths ps m ∈ (save_ message paths _status env).2 := by
  have hemp : st.isEmpty = false := by
    cases st with
    | nil => exact absurd rfl hne
    | cons a l => rfl
  rw [save__nonempty_pre message paths _status env st hpre hemp]
  refine ⟨?_, ?_, ?_, ?_, ?_⟩
  · simp only [List.mem_append]
    exact Or.inl (Or.inl (submoduleLoop_error_mem _ _ _ hcand hfail))
  · simp only [List.mem_append]
    exact Or.inl (Or.inl (Or.inl
      (Or.inr (submoduleLoop_register_mem _ _ _ hother hok))))
  · intro h
    have ha : (to_add (save_st1 env st)).isEmpty = false := by
      cases hta : to_add (save_st1 env st) with
      | nil => exact absurd hta h
      | cons a l => rfl
    simp [ha, List.mem_append]
  · intro h
    have hr : (to_remove (save_st1 env st)).isEmpty = false := by
      cases htr : to_remove (save_st1 env st) with
      | nil => exact absurd htr h
      | cons a l => rfl
    simp [hr, List.mem_append]
  · have h1 : ((save_st1 env st).map Prod.fst).isEmpty = false := by
      cases hs : save_st1 env st with
      | nil => exact absurd hs (save_st1_ne_nil env st hne)
      | cons a l => rfl
    refine ⟨(save_st1 env st).map Prod.fst,
      (match message with
       | none => "Recorded changes"
       | some m => if m = "" then "Recorded changes" else m), ?_⟩
    simp [_save_post, h1, List.mem_append]

/-- C7 witness: two candidate submodules; registering `subA` fails,
`subB` succeeds; the error for `subA` is yielded, `subB` is registered,
the additions are staged, and the commit happens. -/
theorem C7_witness :
    ResultRecord.addSubmoduleError "subA" ∈
      (save_ none none (some c7_status) c7_env).1 ∧
    Effect.registerSubmodule "subB" ∈ (save_ none none (some c7_status) c7_env).2 ∧
    (to_add (save_st1 c7_env c7_status) ≠ [] →
      Effect.stageAdd (to_add (save_st1 c7_env c7_status)) ∈
        (save_ none none (some c7_status) c7_env).2) ∧
    (to_remove (save_st1 c7_env c7_status) ≠ [] →
      Effect.stageRemove (to_remove (save_st1 c7_env c7_status)) ∈
        (save_ none none (some c7_status) c7_env).2) ∧
    ∃ ps m, Effect.commitPaths ps m ∈ (save_ none none (some c7_status) c7_env).2 :=
  C7_submodule_failure_isolated none none (some c7_status) c7_env c7_status
    "subA" "subB" (by rfl) (by decide) (by decide) (by rfl) (by decide) (by rfl)

end DataladRev
